import Mathlib

/-
Verification of the neuroTalk real-time voice pipeline
(`src/utils/websocket_server.py`, `src/utils/vad.py`,
`src/utils/speech_to_text.py`).

Shallow embedding conventions:
- float32 sample values are modelled as exact rationals;
- one handler invocation is treated as atomic at a single wall-clock
  instant `now : Rat` (the several `time.time()` calls inside one call
  of `process_audio_chunk` are microseconds apart);
- external capabilities (base64 decoding, the WebRTC VAD frame decision,
  Whisper model loading and inference) are parameters gathered in `Env`;
  a `.error` value of such a parameter stands for a raised exception;
- a Python function that can raise returns `Except String _`; a caller
  with `try/except` matches on it.
-/

namespace NeuroTalk

/-- Python slice `xs[-n:]`. For `n = 0` Python reads `xs[-0:] = xs[0:]`,
the whole list; otherwise it is the trailing `n` elements. -/
def pySliceLast (n : ℕ) (l : List ℚ) : List ℚ :=
  if n = 0 then l else l.drop (l.length - n)

/-- The trailing `n` elements of a list (all of it when `l.length ≤ n`).
Specification-side description of the sliding window. -/
def lastN (n : ℕ) (l : List ℚ) : List ℚ :=
  l.drop (l.length - n)

/-- `AudioBuffer` (`websocket_server.py` lines 24-66): accumulates float
samples, capped to the trailing `max_samples`.  `max_samples` is
`int(sample_rate * max_duration)` (Python `int()` truncates; both factors
are nonnegative here, so it is the floor). -/
structure AudioBuffer where
  sample_rate : ℕ
  max_samples : ℕ
  buffer : List ℚ
  last_speech_time : ℚ
  silence_threshold : ℚ
deriving Repr, DecidableEq

/-- `AudioBuffer.__init__` with `max_duration` defaulting to `30.0`. -/
def AudioBuffer.mkBuffer (sample_rate : ℕ) (max_duration : ℚ) : AudioBuffer :=
  { sample_rate := sample_rate
    max_samples := (⌊(sample_rate : ℚ) * max_duration⌋).toNat
    buffer := []
    last_speech_time := 0
    silence_threshold := 1 }

/-- `AudioBuffer.add_chunk`: no-op on an empty chunk, else concatenate
and, when over `max_samples`, keep only the Python slice
`buffer[-max_samples:]`. -/
def AudioBuffer.add_chunk (b : AudioBuffer) (audio_chunk : List ℚ) : AudioBuffer :=
  if audio_chunk.length = 0 then b
  else if (b.buffer ++ audio_chunk).length > b.max_samples then
    { b with buffer := pySliceLast b.max_samples (b.buffer ++ audio_chunk) }
  else
    { b with buffer := b.buffer ++ audio_chunk }

/-- `AudioBuffer.get_buffer` (returns a copy; value semantics here). -/
def AudioBuffer.get_buffer (b : AudioBuffer) : List ℚ :=
  b.buffer

/-- `AudioBuffer.clear_buffer`. -/
def AudioBuffer.clear_buffer (b : AudioBuffer) : AudioBuffer :=
  { b with buffer := [] }

/-- `AudioBuffer.get_duration`: `len(buffer)/sample_rate` when nonempty,
else `0.0`. -/
def AudioBuffer.get_duration (b : AudioBuffer) : ℚ :=
  if b.buffer.length > 0 then (b.buffer.length : ℚ) / (b.sample_rate : ℚ) else 0

section SlidingWindow

lemma lastN_of_le {n : ℕ} {l : List ℚ} (h : l.length ≤ n) : lastN n l = l := by
  simp [lastN, Nat.sub_eq_zero_of_le h]

lemma lastN_length (n : ℕ) (l : List ℚ) : (lastN n l).length = min n l.length := by
  simp [lastN]
  omega

lemma lastN_eq_rtake (n : ℕ) (l : List ℚ) : lastN n l = l.rtake n := rfl

lemma lastN_append (n : ℕ) (l c : List ℚ) :
    lastN n (lastN n l ++ c) = lastN n (l ++ c) := by
  rw [lastN_eq_rtake, lastN_eq_rtake, lastN_eq_rtake]
  rw [List.rtake_eq_reverse_take_reverse, List.rtake_eq_reverse_take_reverse,
      List.rtake_eq_reverse_take_reverse]
  rw [List.reverse_append, List.reverse_append, List.reverse_reverse]
  rw [List.take_append_eq_append_take, List.take_append_eq_append_take]
  congr 1
  rw [List.take_take]
  congr 1
  rw [List.length_reverse, Nat.min_eq_left (Nat.sub_le n c.length)]

/-- One `add_chunk` step preserves the sliding-window description, as
long as the cap is positive (so the Python `[-0:]` quirk is not hit). -/
lemma add_chunk_lastN (b : AudioBuffer) (c pre : List ℚ)
    (hM : 0 < b.max_samples) (hb : b.buffer = lastN b.max_samples pre) :
    (b.add_chunk c).buffer = lastN b.max_samples (pre ++ c) := by
  unfold AudioBuffer.add_chunk
  rcases Nat.eq_zero_or_pos c.length with hc | hc
  · have : c = [] := List.length_eq_zero.mp hc
    subst this
    simp [hb]
  · have hcne : ¬ c.length = 0 := Nat.pos_iff_ne_zero.mp hc
    simp only [hcne, if_false]
    by_cases hover : (b.buffer ++ c).length > b.max_samples
    · simp only [hover, if_true]
      rw [pySliceLast, if_neg (Nat.pos_iff_ne_zero.mp hM)]
      rw [hb]
      exact lastN_append b.max_samples pre c
    · simp only [hover, if_false]
      have hle : (b.buffer ++ c).length ≤ b.max_samples := Nat.le_of_not_lt hover
      rw [hb] at hle ⊢
      rw [← lastN_append b.max_samples pre c]
      exact (lastN_of_le hle).symm

@[simp] lemma add_chunk_max_samples (b : AudioBuffer) (c : List ℚ) :
    (b.add_chunk c).max_samples = b.max_samples := by
  unfold AudioBuffer.add_chunk
  split
  · rfl
  · split <;> rfl

@[simp] lemma add_chunk_sample_rate (b : AudioBuffer) (c : List ℚ) :
    (b.add_chunk c).sample_rate = b.sample_rate := by
  unfold AudioBuffer.add_chunk
  split
  · rfl
  · split <;> rfl

lemma foldl_add_chunk_lastN (chunks : List (List ℚ)) (b : AudioBuffer) (pre : List ℚ)
    (hM : 0 < b.max_samples) (hb : b.buffer = lastN b.max_samples pre) :
    (chunks.foldl AudioBuffer.add_chunk b).buffer
      = lastN b.max_samples (pre ++ chunks.flatten)
    ∧ (chunks.foldl AudioBuffer.add_chunk b).max_samples = b.max_samples := by
  induction chunks generalizing b pre with
  | nil => simpa using hb
  | cons c cs ih =>
    have hmax : (b.add_chunk c).max_samples = b.max_samples := add_chunk_max_samples b c
    have h1 : (b.add_chunk c).buffer = lastN (b.add_chunk c).max_samples (pre ++ c) := by
      rw [hmax]
      exact add_chunk_lastN b c pre hM hb
    have h2 := ih (b.add_chunk c) (pre ++ c) (hmax ▸ hM) h1
    rw [List.foldl_cons]
    refine ⟨?_, by rw [h2.2, hmax]⟩
    rw [h2.1, hmax, List.flatten_cons, List.append_assoc]

/-- C5: starting from a fresh buffer, any sequence of `add_chunk` calls
leaves the buffer holding exactly the trailing `max_samples` part of the
concatenation of everything appended; its length never exceeds
`max_samples`, and once the total appended exceeds `max_samples` the
length is exactly `max_samples` (per-sample sliding window).  `add_chunk`
is a total function, so it cannot raise.  The cap is assumed positive,
which holds for every buffer the code constructs
(`int(sample_rate * 30.0)` with a real sample rate). -/
theorem C5_buffer_sliding_window (sample_rate : ℕ) (max_duration : ℚ)
    (chunks : List (List ℚ))
    (hM : 0 < (AudioBuffer.mkBuffer sample_rate max_duration).max_samples) :
    ((chunks.foldl AudioBuffer.add_chunk (AudioBuffer.mkBuffer sample_rate max_duration)).buffer
        = lastN (AudioBuffer.mkBuffer sample_rate max_duration).max_samples chunks.flatten)
    ∧ (chunks.foldl AudioBuffer.add_chunk (AudioBuffer.mkBuffer sample_rate max_duration)).buffer.length
        ≤ (AudioBuffer.mkBuffer sample_rate max_duration).max_samples
    ∧ ((AudioBuffer.mkBuffer sample_rate max_duration).max_samples < chunks.flatten.length →
        (chunks.foldl AudioBuffer.add_chunk (AudioBuffer.mkBuffer sample_rate max_duration)).buffer.length
          = (AudioBuffer.mkBuffer sample_rate max_duration).max_samples) := by
  have h0 : (AudioBuffer.mkBuffer sample_rate max_duration).buffer
      = lastN (AudioBuffer.mkBuffer sample_rate max_duration).max_samples [] := by
    simp [AudioBuffer.mkBuffer, lastN]
  have h := foldl_add_chunk_lastN chunks (AudioBuffer.mkBuffer sample_rate max_duration) [] hM h0
  have hbuf := h.1
  rw [List.nil_append] at hbuf
  refine ⟨hbuf, ?_, ?_⟩
  · rw [hbuf, lastN_length]
    exact Nat.min_le_left _ _
  · intro hover
    rw [hbuf, lastN_length]
    omega

/-- Witness for C5 at a concrete run: cap of 4 samples, appends of
lengths 3 and 2, leaving exactly the last 4 samples appended. -/
theorem C5_buffer_sliding_window_witness :
    (0 < (AudioBuffer.mkBuffer 2 2).max_samples)
    ∧ (((([[1, 2, 3], [4, 5]] : List (List ℚ)).foldl AudioBuffer.add_chunk
          (AudioBuffer.mkBuffer 2 2)).buffer
        = lastN (AudioBuffer.mkBuffer 2 2).max_samples
            ([[1, 2, 3], [4, 5]] : List (List ℚ)).flatten)
      ∧ ((([[1, 2, 3], [4, 5]] : List (List ℚ)).foldl AudioBuffer.add_chunk
          (AudioBuffer.mkBuffer 2 2)).buffer.length
        ≤ (AudioBuffer.mkBuffer 2 2).max_samples)
      ∧ ((AudioBuffer.mkBuffer 2 2).max_samples
            < ([[1, 2, 3], [4, 5]] : List (List ℚ)).flatten.length →
          (([[1, 2, 3], [4, 5]] : List (List ℚ)).foldl AudioBuffer.add_chunk
            (AudioBuffer.mkBuffer 2 2)).buffer.length
          = (AudioBuffer.mkBuffer 2 2).max_samples)) :=
  ⟨by norm_num [AudioBuffer.mkBuffer],
   C5_buffer_sliding_window 2 2 [[1, 2, 3], [4, 5]] (by norm_num [AudioBuffer.mkBuffer])⟩

end SlidingWindow

/-! ## Voice activity detection (`src/utils/vad.py`) -/

/-- Truncation of a rational toward zero: the value of a C float-to-int
cast, which is what numpy `.astype(np.int16)` performs on each element
(before 16-bit wrap-around). -/
def ratTrunc (q : ℚ) : ℤ :=
  if 0 ≤ q then ⌊q⌋ else ⌈q⌉

/-- Reduction of an integer into the 16-bit two's-complement range, the
second half of `.astype(np.int16)`. -/
def i16Wrap (z : ℤ) : ℤ :=
  (z + 32768) % 65536 - 32768

/-- numpy `.astype(np.int16)` on one (exact-rational) float value. -/
def astypeInt16 (q : ℚ) : ℤ :=
  i16Wrap (ratTrunc q)

/-- `np.max(np.abs(audio_data))`.  The fold starts at `0`; every `|x|`
is nonnegative, so on the nonempty lists the code calls this on it is
the true maximum. -/
def maxAbs (l : List ℚ) : ℚ :=
  l.foldl (fun m x => max m |x|) 0

/-- The pre-classification auto-gain of
`VoiceActivityDetector.process_audio_chunks` (`vad.py` lines 82-90):
boost a quiet signal (peak below 0.1) to peak 0.5, scale a clipped
signal (peak above 1.0) to peak 0.9, else leave unscaled. -/
def autoGain (audio : List ℚ) : List ℚ :=
  if 0 < maxAbs audio then
    if maxAbs audio < 1 / 10 then
      audio.map (fun x => x / maxAbs audio * (1 / 2))
    else if 1 < maxAbs audio then
      audio.map (fun x => x / maxAbs audio * (9 / 10))
    else audio
  else audio

/-- `(audio_data * 32767).astype(np.int16)` applied to the gain-adjusted
signal (`vad.py` line 93): the int16 frame data handed to the VAD
capability. -/
def vadInt16 (audio : List ℚ) : List ℤ :=
  (autoGain audio).map (fun x => astypeInt16 (x * 32767))

/-- Zero-pad a short frame to `n` samples (`np.pad(..., mode=constant)`,
`vad.py` lines 102-103). -/
def padFrame (n : ℕ) (c : List ℤ) : List ℤ :=
  if c.length < n then c ++ List.replicate (n - c.length) 0 else c

/-- The frame loop `for i in range(0, len(audio_int16), chunk_size)`:
consecutive non-overlapping frames, the final partial one zero-padded.
`fuel` only drives structural termination; `framesOf` supplies
`l.length`, which is enough whenever `n > 0` (the code always has
`n = frame_size ≥ 240`; Python raises on step `0`, which this model
does not reach). -/
def framesOfAux (fuel n : ℕ) (l : List ℤ) : List (List ℤ) :=
  match fuel, l with
  | _, [] => []
  | 0, _ :: _ => []
  | f + 1, x :: xs => padFrame n ((x :: xs).take n) :: framesOfAux f n ((x :: xs).drop n)

def framesOf (n : ℕ) (l : List ℤ) : List (List ℤ) :=
  framesOfAux l.length n l

/-- `VoiceActivityDetector` configuration (`vad.py` lines 22-48). -/
structure VoiceActivityDetector where
  aggressiveness : ℤ
  sample_rate : ℕ
  frame_duration_ms : ℕ
  frame_size : ℕ
deriving Repr, DecidableEq

/-- `VoiceActivityDetector.__init__`: rejects a sample rate outside
8000/16000/32000/48000 and an aggressiveness outside 0..3 with
`ValueError`, else records `frame_duration_ms = 30` and
`frame_size = sample_rate * 30 / 1000`. -/
def VoiceActivityDetector.make (aggressiveness : ℤ) (sample_rate : ℕ) :
    Except String VoiceActivityDetector :=
  if sample_rate ≠ 8000 ∧ sample_rate ≠ 16000 ∧ sample_rate ≠ 32000 ∧ sample_rate ≠ 48000 then
    .error "Sample rate must be 8000, 16000, 32000, or 48000 Hz"
  else if ¬ (0 ≤ aggressiveness ∧ aggressiveness ≤ 3) then
    .error "Aggressiveness must be 0-3"
  else
    .ok { aggressiveness := aggressiveness
          sample_rate := sample_rate
          frame_duration_ms := 30
          frame_size := sample_rate * 30 / 1000 }

/-- `VoiceActivityDetector.process_audio_chunks` (`vad.py` lines 66-116),
with the WebRTC per-frame decision (`is_speech`, which catches its own
exceptions and fails closed) abstracted as a boolean function of the
int16 frame. -/
def VoiceActivityDetector.process_audio_chunks (v : VoiceActivityDetector)
    (is_speech : List ℤ → Bool) (audio_data : List ℚ) : List (ℕ × Bool) :=
  if audio_data.length = 0 then []
  else ((framesOf v.frame_size (vadInt16 audio_data)).map is_speech).enum

section Conversion

lemma le_foldl_maxAbs (l : List ℚ) (a : ℚ) :
    a ≤ l.foldl (fun m x => max m |x|) a := by
  induction l generalizing a with
  | nil => exact le_refl a
  | cons y ys ih =>
    exact le_trans (le_max_left a |y|) (ih (max a |y|))

lemma mem_le_maxAbs {y : ℚ} {l : List ℚ} (hy : y ∈ l) : |y| ≤ maxAbs l := by
  unfold maxAbs
  generalize (0 : ℚ) = a
  induction l generalizing a with
  | nil => cases hy
  | cons z zs ih =>
    rcases List.mem_cons.mp hy with h | h
    · subst h
      exact le_trans (le_max_right a |y|) (le_foldl_maxAbs zs (max a |y|))
    · exact ih h _

lemma maxAbs_nonneg (l : List ℚ) : 0 ≤ maxAbs l :=
  le_foldl_maxAbs l 0

/-- Every sample the auto-gain stage emits has absolute value at most 1,
so the int16 cast that follows it cannot overflow. -/
lemma mem_autoGain_abs_le_one {x : ℚ} {audio : List ℚ} (hx : x ∈ autoGain audio) :
    |x| ≤ 1 := by
  unfold autoGain at hx
  by_cases h0 : 0 < maxAbs audio
  · rw [if_pos h0] at hx
    by_cases hq : maxAbs audio < 1 / 10
    · rw [if_pos hq] at hx
      rcases List.mem_map.mp hx with ⟨y, hy, rfl⟩
      have hym := mem_le_maxAbs hy
      rw [abs_mul, abs_div, abs_of_pos h0]
      have h1 : |y| / maxAbs audio ≤ 1 := (div_le_one h0).mpr hym
      have h2 : |(1 : ℚ) / 2| = 1 / 2 := by norm_num
      rw [h2]
      nlinarith [abs_nonneg y]
    · rw [if_neg hq] at hx
      by_cases hc : 1 < maxAbs audio
      · rw [if_pos hc] at hx
        rcases List.mem_map.mp hx with ⟨y, hy, rfl⟩
        have hym := mem_le_maxAbs hy
        rw [abs_mul, abs_div, abs_of_pos h0]
        have h1 : |y| / maxAbs audio ≤ 1 := (div_le_one h0).mpr hym
        have h2 : |(9 : ℚ) / 10| = 9 / 10 := by norm_num
        rw [h2]
        nlinarith [abs_nonneg y]
      · rw [if_neg hc] at hx
        exact le_trans (mem_le_maxAbs hx) (not_lt.mp hc)
  · rw [if_neg h0] at hx
    have := mem_le_maxAbs hx
    have hm0 : maxAbs audio ≤ 0 := not_lt.mp h0
    linarith

lemma ratTrunc_bounds {q : ℚ} (hq : |q| ≤ 32767) :
    -32767 ≤ ratTrunc q ∧ ratTrunc q ≤ 32767 := by
  have hlo : -32767 ≤ q := neg_le_of_abs_le hq
  have hhi : q ≤ 32767 := le_of_abs_le hq
  unfold ratTrunc
  by_cases h : 0 ≤ q
  · rw [if_pos h]
    refine ⟨?_, ?_⟩
    · have h1 : (0 : ℤ) ≤ ⌊q⌋ := Int.floor_nonneg.mpr h
      omega
    · have h1 : ⌊q⌋ ≤ ⌊(32767 : ℚ)⌋ := Int.floor_le_floor hhi
      have h2 : ⌊(32767 : ℚ)⌋ = 32767 := by norm_num
      omega
  · rw [if_neg h]
    refine ⟨?_, ?_⟩
    · have h1 : ⌈(-32767 : ℚ)⌉ ≤ ⌈q⌉ := Int.ceil_le_ceil hlo
      have h2 : ⌈(-32767 : ℚ)⌉ = -32767 := by
        rw [show ((-32767 : ℚ)) = ((-32767 : ℤ) : ℚ) by norm_num, Int.ceil_intCast]
      omega
    · have h1 : ⌈q⌉ ≤ (0 : ℤ) := Int.ceil_le.mpr (by push_cast; linarith)
      omega

/-- C7 as the spec states it ("converted to 16-bit signed PCM as
`round(x*32767)`, the nearest integer") is false: numpy
`.astype(np.int16)` truncates toward zero.  At the single sample `0.7`
(auto-gain leaves it unchanged since its peak is in `[0.1, 1]`), the
code passes `22936` to the VAD capability while `round(0.7*32767)` is
`22937`. -/
theorem C7_counterexample :
    vadInt16 [(7 : ℚ) / 10] ≠ [round (((7 : ℚ) / 10) * 32767)] := by
  have hm : maxAbs [(7 : ℚ) / 10] = 7 / 10 := by
    simp [maxAbs]
    norm_num
  have h1 : vadInt16 [(7 : ℚ) / 10] = [22936] := by
    unfold vadInt16 autoGain
    rw [hm]
    rw [if_pos (by norm_num), if_neg (by norm_num), if_neg (by norm_num)]
    simp only [List.map]
    unfold astypeInt16 i16Wrap ratTrunc
    rw [if_pos (by norm_num)]
    norm_num
  have h2 : round (((7 : ℚ) / 10) * 32767) = 22937 := by
    rw [round_eq]
    norm_num
  rw [h1, h2]
  decide

/-- C7 amended: before frames are passed to the VAD capability, each
auto-gain-adjusted sample `x` is converted to 16-bit signed PCM by
truncating `x * 32767` toward zero (numpy `.astype(np.int16)`), not by
rounding to nearest: the emitted integer is `ratTrunc (x * 32767)` (the
16-bit wrap is a no-op because auto-gain bounds `|x| ≤ 1`), and that
integer is the value of `x * 32767` with its fractional part dropped:
at most `x * 32767` and within 1 of it for `x ≥ 0`, at least `x * 32767`
and within 1 of it for `x < 0`. -/
theorem C7_pcm16_truncation (audio : List ℚ) (x : ℚ) (hx : x ∈ autoGain audio) :
    astypeInt16 (x * 32767) = ratTrunc (x * 32767)
    ∧ (0 ≤ x → ((ratTrunc (x * 32767) : ℚ) ≤ x * 32767
        ∧ x * 32767 < (ratTrunc (x * 32767) : ℚ) + 1))
    ∧ (x < 0 → (x * 32767 - 1 < (ratTrunc (x * 32767) : ℚ)
        ∧ x * 32767 ≤ (ratTrunc (x * 32767) : ℚ))) := by
  have habs : |x| ≤ 1 := mem_autoGain_abs_le_one hx
  have habs2 : |x * 32767| ≤ 32767 := by
    rw [abs_mul]
    rw [show |(32767 : ℚ)| = 32767 by norm_num]
    nlinarith [abs_nonneg x]
  have hb := ratTrunc_bounds habs2
  refine ⟨?_, ?_, ?_⟩
  · unfold astypeInt16 i16Wrap
    have hmod : (ratTrunc (x * 32767) + 32768) % 65536 = ratTrunc (x * 32767) + 32768 :=
      Int.emod_eq_of_lt (by omega) (by omega)
    omega
  · intro hx0
    have hq0 : 0 ≤ x * 32767 := by positivity
    unfold ratTrunc
    rw [if_pos hq0]
    exact ⟨Int.floor_le _, Int.lt_floor_add_one _⟩
  · intro hx0
    have hq0 : ¬ 0 ≤ x * 32767 := by nlinarith
    unfold ratTrunc
    rw [if_neg hq0]
    have h1 : ⌈x * 32767⌉ < x * 32767 + 1 := Int.ceil_lt_add_one _
    have h2 : x * 32767 ≤ ⌈x * 32767⌉ := Int.le_ceil _
    exact ⟨by linarith, h2⟩

/-- Witness for C7 amended at the concrete sample `-0.7`: it is its own
auto-gain output, and the conversion emits the toward-zero truncation
`-22936` of `-22936.9` (nearest would be `-22937`). -/
theorem C7_pcm16_truncation_witness :
    (-(7 : ℚ) / 10) ∈ autoGain [-(7 : ℚ) / 10]
    ∧ (astypeInt16 ((-(7 : ℚ) / 10) * 32767) = ratTrunc ((-(7 : ℚ) / 10) * 32767)
      ∧ (0 ≤ (-(7 : ℚ) / 10) → ((ratTrunc ((-(7 : ℚ) / 10) * 32767) : ℚ) ≤ (-(7 : ℚ) / 10) * 32767
          ∧ (-(7 : ℚ) / 10) * 32767 < (ratTrunc ((-(7 : ℚ) / 10) * 32767) : ℚ) + 1))
      ∧ ((-(7 : ℚ) / 10) < 0 → ((-(7 : ℚ) / 10) * 32767 - 1 < (ratTrunc ((-(7 : ℚ) / 10) * 32767) : ℚ)
          ∧ (-(7 : ℚ) / 10) * 32767 ≤ (ratTrunc ((-(7 : ℚ) / 10) * 32767) : ℚ))))
    ∧ ratTrunc ((-(7 : ℚ) / 10) * 32767) = -22936 := by
  have hm : maxAbs [-(7 : ℚ) / 10] = 7 / 10 := by
    simp [maxAbs]
    norm_num
  have hmem : (-(7 : ℚ) / 10) ∈ autoGain [-(7 : ℚ) / 10] := by
    unfold autoGain
    rw [hm]
    rw [if_pos (by norm_num), if_neg (by norm_num), if_neg (by norm_num)]
    simp
  refine ⟨hmem, C7_pcm16_truncation [-(7 : ℚ) / 10] (-(7 : ℚ) / 10) hmem, ?_⟩
  unfold ratTrunc
  rw [if_neg (by norm_num)]
  rw [show ((-(7 : ℚ) / 10) * 32767) = -(229369 / 10) by norm_num]
  rw [Int.ceil_neg]
  norm_num

end Conversion

/-! ## Speech to text (`src/utils/speech_to_text.py`) -/

/-- What the Whisper capability returns on success: the result dict with
its `text` and (possibly absent) `language` keys. -/
structure WhisperResult where
  text : String
  language : Option String
deriving Repr, DecidableEq

/-- The dict `SpeechToTextProcessor.transcribe_audio` returns: the
capability result on success (no `error` key, modelled `error = none`),
or the fallback `text = ""` plus `error` message on any exception. -/
structure TranscriptionDict where
  text : String
  language : Option String
  error : Option String
deriving Repr, DecidableEq

/-- The external capabilities the pipeline calls out to, as parameters:
`base64.b64decode` on the wire string, the WebRTC per-frame speech
decision, `whisper.load_model` (a `.error` is a raised exception) and
the loaded model's `transcribe`. -/
structure Env where
  b64decode : List ℕ → Except String (List ℕ)
  is_speech : List ℤ → Bool
  load_model : String → Except String Unit
  whisper_transcribe : List ℚ → Option String → Except String WhisperResult

/-- `SpeechToTextProcessor.__init__` (`speech_to_text.py` lines 25-55):
validate the model size, then load the model; either failure raises. -/
def SpeechToTextProcessor.make (env : Env) (model_size : String) : Except String Unit :=
  if model_size = "tiny" ∨ model_size = "base" ∨ model_size = "small"
      ∨ model_size = "medium" ∨ model_size = "large" then
    env.load_model model_size
  else
    .error "Model size must be one of tiny, base, small, medium, large"

/-- One point of `np.interp(p, arange(len(fp)), fp)`: clamped linear
interpolation on integer sample points. -/
def interpAt (fp : List ℚ) (p : ℚ) : ℚ :=
  if p ≤ 0 then fp.headD 0
  else if ((fp.length : ℚ) - 1) ≤ p then fp.getLastD 0
  else
    let i := (⌊p⌋).toNat
    let a := fp.getD i 0
    let b := fp.getD (i + 1) 0
    a + (p - (i : ℚ)) * (b - a)

/-- `np.linspace(a, b, n)` (endpoint included, `n` points). -/
def linspace (a b : ℚ) (n : ℕ) : List ℚ :=
  if n = 0 then []
  else if n = 1 then [a]
  else (List.range n).map (fun j => a + (b - a) * (j : ℚ) / ((n : ℚ) - 1))

/-- The resampling step of `transcribe_audio` (lines 83-91):
`np.interp(np.linspace(0, len, int(len*16000/sr)), np.arange(len), audio)`.
`np.interp` raises on an empty sample-point array. -/
def resampleLinear (audio : List ℚ) (sample_rate : ℕ) : Except String (List ℚ) :=
  if audio.length = 0 then .error "array of sample points is empty"
  else
    .ok ((linspace 0 (audio.length : ℚ) (audio.length * 16000 / sample_rate)).map
      (interpAt audio))

/-- The body of `transcribe_audio` before the capability call: normalize
to peak 1 when the peak exceeds 1, then resample when the configured
rate is not 16 kHz. -/
def sttPrep (audio : List ℚ) (sample_rate : ℕ) : Except String (List ℚ) :=
  let audio1 := if 1 < maxAbs audio then audio.map (fun x => x / maxAbs audio) else audio
  if sample_rate ≠ 16000 then resampleLinear audio1 sample_rate else .ok audio1

/-- `SpeechToTextProcessor.transcribe_audio` (lines 57-109): the whole
body sits in one `try`; any raised exception is caught and turned into
the dict with empty `text` and the message under `error`. -/
def SpeechToTextProcessor.transcribe_audio (env : Env) (audio : List ℚ)
    (sample_rate : ℕ) (language : Option String) : TranscriptionDict :=
  let body : Except String WhisperResult :=
    match sttPrep audio sample_rate with
    | .error e => .error e
    | .ok prepped => env.whisper_transcribe prepped language
  match body with
  | .ok r => { text := r.text, language := r.language, error := none }
  | .error e => { text := "", language := none, error := some e }

/-! ## Real-time processor (`src/utils/websocket_server.py` lines 69-265) -/

/-- The result dict a successful `process_audio_chunk` builds (lines
149-159).  `rms_amplitude` in the source is the float square root of the
mean square; the mean square itself is carried here exactly (the square
root of a rational is in general irrational), which determines the
reported value.  The `transcription_queued` key is absent unless set to
`True`; absence is modelled as `false`. -/
structure ChunkStats where
  speech_detected : Bool
  max_amplitude : ℚ
  rms_amplitude_sq : ℚ
  chunk_duration : ℚ
  buffer_duration : ℚ
  total_chunks : ℕ
  speech_chunks : ℕ
  timestamp : ℚ
  transcription_queued : Bool
deriving Repr, DecidableEq

/-- Return value of `process_audio_chunk`: the stats dict, or an error
dict from the surrounding `try/except`. -/
inductive ChunkOutcome
  | error (msg : String)
  | ok (stats : ChunkStats)
deriving Repr, DecidableEq

/-- `RealTimeVoiceProcessor` state (lines 74-101). `stt` is lazily
loaded; only the loaded/not-loaded fact matters here. -/
structure RealTimeVoiceProcessor where
  sample_rate : ℕ
  vad : VoiceActivityDetector
  stt_loaded : Bool
  whisper_model : String
  audio_buffer : AudioBuffer
  processing_queue : List (List ℚ)
  total_chunks_processed : ℕ
  speech_chunks_detected : ℕ
  last_transcription : String
  last_transcription_time : ℚ
deriving Repr, DecidableEq

/-- The record `__init__` builds once the VAD constructor has
succeeded. -/
def RealTimeVoiceProcessor.setup (vad : VoiceActivityDetector) (sample_rate : ℕ)
    (whisper_model : String) : RealTimeVoiceProcessor :=
  { sample_rate := sample_rate
    vad := vad
    stt_loaded := false
    whisper_model := whisper_model
    audio_buffer := AudioBuffer.mkBuffer sample_rate 30
    processing_queue := []
    total_chunks_processed := 0
    speech_chunks_detected := 0
    last_transcription := ""
    last_transcription_time := 0 }

/-- `RealTimeVoiceProcessor.__init__`: constructing the VAD may raise
(`ValueError` on a bad sample rate or aggressiveness), in which case no
processor is produced. -/
def RealTimeVoiceProcessor.make (vad_aggressiveness : ℤ) (sample_rate : ℕ)
    (whisper_model : String) : Except String RealTimeVoiceProcessor :=
  match VoiceActivityDetector.make vad_aggressiveness sample_rate with
  | .error e => .error e
  | .ok v => .ok (RealTimeVoiceProcessor.setup v sample_rate whisper_model)

/-- Two's-complement reading of a 16-bit little-endian value. -/
def toSigned16 (v : ℕ) : ℤ :=
  if 32768 ≤ v then (v : ℤ) - 65536 else (v : ℤ)

/-- `np.frombuffer(audio_bytes, dtype=np.int16)`: little-endian byte
pairs; an odd byte count raises `ValueError`.  A byte is `0..255`
(`% 256` records that). -/
def int16OfBytes : List ℕ → Except String (List ℤ)
  | [] => .ok []
  | [_] => .error "buffer size must be a multiple of element size"
  | lo :: hi :: rest =>
    match int16OfBytes rest with
    | .error e => .error e
    | .ok t => .ok (toSigned16 (lo % 256 + 256 * (hi % 256)) :: t)

/-- Line 139: `speech_detected = any(is_speech for _, is_speech in vad_results)`. -/
def RealTimeVoiceProcessor.speechDetected (env : Env) (p : RealTimeVoiceProcessor)
    (audio_float : List ℚ) : Bool :=
  (p.vad.process_audio_chunks env.is_speech audio_float).any (fun r => r.2)

/-- Lines 132 and 141-143: the utterance buffer after appending the
chunk and, when the chunk carried speech, marking `last_speech_time`
with the current instant. -/
def RealTimeVoiceProcessor.chunkBuffer (env : Env) (p : RealTimeVoiceProcessor)
    (audio_float : List ℚ) (now : ℚ) : AudioBuffer :=
  let buf1 := p.audio_buffer.add_chunk audio_float
  if RealTimeVoiceProcessor.speechDetected env p audio_float then
    { buf1 with last_speech_time := now }
  else buf1

/-- Lines 161-167: the dispatch condition, evaluated on the post-append
buffer state (`time_since_speech = now - last_speech_time` with
`last_speech_time` freshly set when this very chunk carried speech). -/
def RealTimeVoiceProcessor.triggerFires (env : Env) (p : RealTimeVoiceProcessor)
    (audio_float : List ℚ) (now : ℚ) : Prop :=
  RealTimeVoiceProcessor.speechDetected env p audio_float = true
  ∧ 1 < (RealTimeVoiceProcessor.chunkBuffer env p audio_float now).get_duration
  ∧ now - (RealTimeVoiceProcessor.chunkBuffer env p audio_float now).last_speech_time
      < (RealTimeVoiceProcessor.chunkBuffer env p audio_float now).silence_threshold

instance (env : Env) (p : RealTimeVoiceProcessor) (a : List ℚ) (now : ℚ) :
    Decidable (RealTimeVoiceProcessor.triggerFires env p a now) := by
  unfold RealTimeVoiceProcessor.triggerFires
  infer_instance

/-- The stats dict of lines 149-159 (before the optional
`transcription_queued` key of line 171 is added). -/
def RealTimeVoiceProcessor.chunkStats (env : Env) (p : RealTimeVoiceProcessor)
    (audio_float : List ℚ) (now : ℚ) : ChunkStats :=
  { speech_detected := RealTimeVoiceProcessor.speechDetected env p audio_float
    max_amplitude := maxAbs audio_float
    rms_amplitude_sq := (audio_float.map (fun x => x ^ 2)).sum / (audio_float.length : ℚ)
    chunk_duration := (audio_float.length : ℚ) / (p.sample_rate : ℚ)
    buffer_duration := (RealTimeVoiceProcessor.chunkBuffer env p audio_float now).get_duration
    total_chunks := p.total_chunks_processed + 1
    speech_chunks := p.speech_chunks_detected
      + (if RealTimeVoiceProcessor.speechDetected env p audio_float then 1 else 0)
    timestamp := now
    transcription_queued := false }

/-- Lines 131-173, after the decoded floats passed the emptiness check:
update buffer, counters and speech marking, then either enqueue the
buffer snapshot with `transcription_queued = True` or return the plain
stats. -/
def RealTimeVoiceProcessor.processSamples (env : Env) (p : RealTimeVoiceProcessor)
    (audio_float : List ℚ) (now : ℚ) : RealTimeVoiceProcessor × ChunkStats :=
  let buf2 := RealTimeVoiceProcessor.chunkBuffer env p audio_float now
  let stats := RealTimeVoiceProcessor.chunkStats env p audio_float now
  if RealTimeVoiceProcessor.triggerFires env p audio_float now then
    ({ p with audio_buffer := buf2
              total_chunks_processed := stats.total_chunks
              speech_chunks_detected := stats.speech_chunks
              processing_queue := p.processing_queue ++ [buf2.get_buffer] },
     { stats with transcription_queued := true })
  else
    ({ p with audio_buffer := buf2
              total_chunks_processed := stats.total_chunks
              speech_chunks_detected := stats.speech_chunks },
     stats)

/-- Line 126: `audio_array.astype(np.float32) / 32768.0`, the int16
samples as normalized floats. -/
def floatOfInt16 (ints : List ℤ) : List ℚ :=
  ints.map (fun (z : ℤ) => ((z : ℚ)) / 32768)

/-- `RealTimeVoiceProcessor.process_audio_chunk` (lines 110-177).  The
base64 string travels as `audio_data`; decoding it, reading int16
samples, and everything after sit inside one `try`, whose `except`
returns an error dict leaving the processor untouched.  All the
`time.time()` calls of one invocation are the single instant `now`. -/
def RealTimeVoiceProcessor.process_audio_chunk (env : Env)
    (p : RealTimeVoiceProcessor) (audio_data : List ℕ) (now : ℚ) :
    RealTimeVoiceProcessor × ChunkOutcome :=
  match env.b64decode audio_data with
  | .error e => (p, .error e)
  | .ok audio_bytes =>
    match int16OfBytes audio_bytes with
    | .error e => (p, .error e)
    | .ok ints =>
      let audio_float := floatOfInt16 ints
      if audio_float.length = 0 then (p, .error "Empty audio chunk")
      else
        let out := RealTimeVoiceProcessor.processSamples env p audio_float now
        (out.1, .ok out.2)

/-- The outbound message `process_transcription_queue` produces: the
`transcription_complete` dict or the `transcription_error` dict
(both are later sent with `type = "transcription"`). -/
inductive TransMessage
  | complete (text : String) (language : String) (duration : ℚ) (timestamp : ℚ)
  | failed (error : String)
deriving Repr, DecidableEq

/-- The tail of `process_transcription_queue` after the dequeued audio
passed the emptiness check and the model is loaded: call
`transcribe_audio` (which never raises) and branch on the presence of
its `error` key (line 208). -/
def RealTimeVoiceProcessor.transcribeStep (env : Env)
    (p : RealTimeVoiceProcessor) (audio_data : List ℚ) (now : ℚ) :
    RealTimeVoiceProcessor × Option TransMessage :=
  let td := SpeechToTextProcessor.transcribe_audio env audio_data p.sample_rate (some "en")
  match td.error with
  | none =>
    ({ p with last_transcription := td.text, last_transcription_time := now },
     some (.complete td.text (td.language.getD "unknown")
        ((audio_data.length : ℚ) / (p.sample_rate : ℚ)) now))
  | some e => (p, some (.failed e))

/-- `RealTimeVoiceProcessor.process_transcription_queue` (lines
179-233): empty queue → `None`; otherwise the head is dequeued
(`get_nowait`), an empty snapshot → `None`, a lazy-load failure is
caught by the `except` and surfaced as a `transcription_error`. -/
def RealTimeVoiceProcessor.process_transcription_queue (env : Env)
    (p : RealTimeVoiceProcessor) (now : ℚ) :
    RealTimeVoiceProcessor × Option TransMessage :=
  match p.processing_queue with
  | [] => (p, none)
  | audio_data :: rest =>
    let p1 := { p with processing_queue := rest }
    if audio_data.length = 0 then (p1, none)
    else if p.stt_loaded then
      RealTimeVoiceProcessor.transcribeStep env p1 audio_data now
    else
      match SpeechToTextProcessor.make env p.whisper_model with
      | .error e => (p1, some (.failed e))
      | .ok _ => RealTimeVoiceProcessor.transcribeStep env
          { p1 with stt_loaded := true } audio_data now

/-- The dict `get_stats` returns (lines 235-248). -/
structure StatsDict where
  total_chunks : ℕ
  speech_chunks : ℕ
  speech_ratio : ℚ
  buffer_duration : ℚ
  last_transcription : String
  last_transcription_time : ℚ
  model_loaded : Bool
deriving Repr, DecidableEq

/-- `RealTimeVoiceProcessor.get_stats`: pure read of the counters. -/
def RealTimeVoiceProcessor.get_stats (p : RealTimeVoiceProcessor) : StatsDict :=
  { total_chunks := p.total_chunks_processed
    speech_chunks := p.speech_chunks_detected
    speech_ratio := if 0 < p.total_chunks_processed then
        (p.speech_chunks_detected : ℚ) / (p.total_chunks_processed : ℚ) else 0
    buffer_duration := p.audio_buffer.get_duration
    last_transcription := p.last_transcription
    last_transcription_time := p.last_transcription_time
    model_loaded := p.stt_loaded }

/-- `RealTimeVoiceProcessor.reset` (lines 250-265): clear buffer, zero
counters, drain the queue; the VAD and the loaded model persist. -/
def RealTimeVoiceProcessor.reset (p : RealTimeVoiceProcessor) : RealTimeVoiceProcessor :=
  { p with audio_buffer := p.audio_buffer.clear_buffer
           total_chunks_processed := 0
           speech_chunks_detected := 0
           last_transcription := ""
           last_transcription_time := 0
           processing_queue := [] }

/-! ## WebSocket server (`src/utils/websocket_server.py` lines 268-398) -/

/-- An inbound message after JSON parsing, keyed on its `type`.  `init`
carries the settings (defaults already applied by `.get`); for
`audio_chunk` the base64 payload string travels as a list of character
codes, the empty list standing for the falsy empty-or-missing
`audio_data`. -/
inductive InMsg
  | init (vad_aggressiveness : ℤ) (sample_rate : ℕ) (whisper_model : String)
  | audio_chunk (audio_data : List ℕ)
  | get_stats
  | reset
  | other (t : String)
deriving Repr, DecidableEq

/-- The single reply `process_message` returns for one inbound message
(`handle_client` sends exactly one JSON object per non-`None` return).
`audio_processed` is the chunk result dict with `type="audio_processed"`
(the error dict from `process_audio_chunk` also gets that type);
`transcription` is the queue result dict with `type="transcription"`
(also for its `transcription_error` status). -/
inductive OutMsg
  | errorReply (msg : String)
  | init_response (vad_aggressiveness : ℤ) (sample_rate : ℕ) (whisper_model : String)
  | audio_processed (result : ChunkOutcome)
  | transcription (t : TransMessage)
  | stats (s : StatsDict)
  | reset_response
deriving Repr, DecidableEq

/-- `WebSocketAudioServer` state: one `processor` field for the whole
server (shared by every connected client), plus the connected-client
set. -/
structure WebSocketAudioServer where
  processor : Option RealTimeVoiceProcessor
  clients : List ℕ

/-- `WebSocketAudioServer.process_message` (lines 318-376).  An
exception raised inside (the `init` branch constructing a processor
with bad settings) is caught by `handle_client`, which replies with the
error dict and keeps state; that catch is folded in here. -/
def WebSocketAudioServer.process_message (env : Env) (now : ℚ)
    (s : WebSocketAudioServer) (m : InMsg) : WebSocketAudioServer × OutMsg :=
  match m with
  | .init a sr wm =>
    match RealTimeVoiceProcessor.make a sr wm with
    | .error e => (s, .errorReply e)
    | .ok p => ({ s with processor := some p }, .init_response a sr wm)
  | .audio_chunk audio_data =>
    match s.processor with
    | none => (s, .errorReply "Processor not initialized")
    | some p =>
      if audio_data.length = 0 then (s, .errorReply "No audio data provided")
      else
        let step1 := RealTimeVoiceProcessor.process_audio_chunk env p audio_data now
        let step2 := RealTimeVoiceProcessor.process_transcription_queue env step1.1 now
        match step2.2 with
        | some t => ({ s with processor := some step2.1 }, .transcription t)
        | none => ({ s with processor := some step2.1 }, .audio_processed step1.2)
  | .get_stats =>
    match s.processor with
    | none => (s, .errorReply "Processor not initialized")
    | some p => (s, .stats p.get_stats)
  | .reset =>
    match s.processor with
    | none => (s, .reset_response)
    | some p => ({ s with processor := some p.reset }, .reset_response)
  | .other t => (s, .errorReply ("Unknown message type: " ++ t))

/-! ## Claim C1: the dispatch rule -/

lemma processSamples_spec (env : Env) (p : RealTimeVoiceProcessor)
    (a : List ℚ) (now : ℚ) :
    ((RealTimeVoiceProcessor.processSamples env p a now).2.transcription_queued = true
      ↔ RealTimeVoiceProcessor.triggerFires env p a now)
    ∧ (RealTimeVoiceProcessor.processSamples env p a now).1.audio_buffer
        = RealTimeVoiceProcessor.chunkBuffer env p a now
    ∧ (RealTimeVoiceProcessor.processSamples env p a now).2.speech_detected
        = RealTimeVoiceProcessor.speechDetected env p a
    ∧ (RealTimeVoiceProcessor.triggerFires env p a now →
        (RealTimeVoiceProcessor.processSamples env p a now).1.processing_queue
          = p.processing_queue
            ++ [(RealTimeVoiceProcessor.chunkBuffer env p a now).get_buffer])
    ∧ (¬ RealTimeVoiceProcessor.triggerFires env p a now →
        (RealTimeVoiceProcessor.processSamples env p a now).1.processing_queue
          = p.processing_queue) := by
  by_cases h : RealTimeVoiceProcessor.triggerFires env p a now <;>
    simp [RealTimeVoiceProcessor.processSamples, RealTimeVoiceProcessor.chunkStats, h]

/-- `process_audio_chunk` when base64 decoding raises: error reply,
state untouched. -/
lemma process_audio_chunk_b64_error {env : Env} {p : RealTimeVoiceProcessor}
    {audio_data : List ℕ} {now : ℚ} {e : String}
    (hb : env.b64decode audio_data = .error e) :
    RealTimeVoiceProcessor.process_audio_chunk env p audio_data now
      = (p, ChunkOutcome.error e) := by
  unfold RealTimeVoiceProcessor.process_audio_chunk
  rw [hb]

/-- `process_audio_chunk` when `np.frombuffer` raises. -/
lemma process_audio_chunk_int16_error {env : Env} {p : RealTimeVoiceProcessor}
    {audio_data bytes : List ℕ} {now : ℚ} {e : String}
    (hb : env.b64decode audio_data = .ok bytes)
    (hi : int16OfBytes bytes = .error e) :
    RealTimeVoiceProcessor.process_audio_chunk env p audio_data now
      = (p, ChunkOutcome.error e) := by
  unfold RealTimeVoiceProcessor.process_audio_chunk
  rw [hb]
  dsimp only
  rw [hi]

/-- `process_audio_chunk` when the payload decodes to zero samples:
the `Empty audio chunk` error, before any state is touched. -/
lemma process_audio_chunk_empty {env : Env} {p : RealTimeVoiceProcessor}
    {audio_data bytes : List ℕ} {now : ℚ} {ints : List ℤ}
    (hb : env.b64decode audio_data = .ok bytes)
    (hi : int16OfBytes bytes = .ok ints) (hnil : ints = []) :
    RealTimeVoiceProcessor.process_audio_chunk env p audio_data now
      = (p, ChunkOutcome.error "Empty audio chunk") := by
  unfold RealTimeVoiceProcessor.process_audio_chunk
  rw [hb]
  dsimp only
  rw [hi]
  dsimp only
  rw [if_pos (by simp [hnil, floatOfInt16])]

/-- `process_audio_chunk` on a nonempty decoded payload runs the sample
pipeline. -/
lemma process_audio_chunk_ok {env : Env} {p : RealTimeVoiceProcessor}
    {audio_data bytes : List ℕ} {now : ℚ} {ints : List ℤ}
    (hb : env.b64decode audio_data = .ok bytes)
    (hi : int16OfBytes bytes = .ok ints) (hne : ints ≠ []) :
    RealTimeVoiceProcessor.process_audio_chunk env p audio_data now
      = ((RealTimeVoiceProcessor.processSamples env p
            (floatOfInt16 ints) now).1,
         ChunkOutcome.ok (RealTimeVoiceProcessor.processSamples env p
            (floatOfInt16 ints) now).2) := by
  unfold RealTimeVoiceProcessor.process_audio_chunk
  rw [hb]
  dsimp only
  rw [hi]
  dsimp only
  rw [if_neg (by simp [hne, floatOfInt16])]

lemma dispatch_spec (env : Env) (p p' : RealTimeVoiceProcessor)
    (audio_data : List ℕ) (now : ℚ) (r : ChunkStats)
    (h : RealTimeVoiceProcessor.process_audio_chunk env p audio_data now
        = (p', ChunkOutcome.ok r)) :
    (r.transcription_queued = true ↔
      (r.speech_detected = true
        ∧ 1 < p'.audio_buffer.get_duration
        ∧ now - p'.audio_buffer.last_speech_time < p'.audio_buffer.silence_threshold))
    ∧ (r.transcription_queued = true →
        p'.processing_queue = p.processing_queue ++ [p'.audio_buffer.get_buffer])
    ∧ (r.transcription_queued = false → p'.processing_queue = p.processing_queue) := by
  cases hb : env.b64decode audio_data with
  | error e =>
    rw [process_audio_chunk_b64_error hb] at h
    simp at h
  | ok audio_bytes =>
    cases hi : int16OfBytes audio_bytes with
    | error e =>
      rw [process_audio_chunk_int16_error hb hi] at h
      simp at h
    | ok ints =>
      by_cases hnil : ints = []
      · rw [process_audio_chunk_empty hb hi hnil] at h
        simp at h
      · rw [process_audio_chunk_ok hb hi hnil] at h
        simp only [Prod.mk.injEq, ChunkOutcome.ok.injEq] at h
        obtain ⟨hp, hr⟩ := h
        subst hp
        subst hr
        obtain ⟨hq, hbuf, hsp, hqueue, hnoqueue⟩ :=
          processSamples_spec env p (floatOfInt16 ints) now
        refine ⟨?_, ?_, ?_⟩
        · rw [hq, hbuf, hsp]
          exact Iff.rfl
        · intro ht
          rw [hbuf]
          exact hqueue (hq.mp ht)
        · intro ht
          refine hnoqueue (fun hc => ?_)
          have h2 := hq.mpr hc
          rw [ht] at h2
          exact Bool.false_ne_true h2

/-- C1: for an `audio_chunk` that processes successfully, the buffer is
enqueued for transcription, and the result marked
`transcription_queued = True`, exactly when the chunk carried speech in
at least one VAD frame AND the post-append buffer duration exceeds 1.0 s
AND the time since the last speech-bearing chunk (with
`last_speech_time` just refreshed by this chunk when it carried speech)
is strictly below the 1.0 s silence threshold; otherwise the queue is
untouched. -/
theorem C1_dispatch_rule (env : Env) (p p' : RealTimeVoiceProcessor)
    (audio_data : List ℕ) (now : ℚ) (r : ChunkStats)
    (h : RealTimeVoiceProcessor.process_audio_chunk env p audio_data now
        = (p', ChunkOutcome.ok r)) :
    (r.transcription_queued = true ↔
      (r.speech_detected = true
        ∧ 1 < p'.audio_buffer.get_duration
        ∧ now - p'.audio_buffer.last_speech_time < p'.audio_buffer.silence_threshold))
    ∧ (r.transcription_queued = true →
        p'.processing_queue = p.processing_queue ++ [p'.audio_buffer.get_buffer])
    ∧ (r.transcription_queued = false → p'.processing_queue = p.processing_queue) :=
  dispatch_spec env p p' audio_data now r h

/-! ## Concrete witness scenario -/

/-- A concrete base64 decoder for witnesses: the one-character string
`[9]` stands for a whitespace-only base64 string (decodes to no bytes),
the one-character string `[1]` for a 4-character base64 string encoding
the two bytes of one zero int16 sample; any other string decodes to its
own codes. -/
def b64W : List ℕ → Except String (List ℕ)
  | [9] => .ok []
  | [1] => .ok [0, 0]
  | s => .ok s

/-- Concrete capability environment for witnesses: every VAD frame is
declared speech, the model loads, and transcription returns the text
`hello` in English. -/
def envW : Env :=
  { b64decode := b64W
    is_speech := fun _ => true
    load_model := fun _ => .ok ()
    whisper_transcribe := fun _ _ => .ok { text := "hello", language := some "en" } }

/-- The VAD the default settings construct. -/
def vadW : VoiceActivityDetector :=
  { aggressiveness := 1, sample_rate := 16000, frame_duration_ms := 30, frame_size := 480 }

/-- A freshly initialized processor with the default settings. -/
def procW : RealTimeVoiceProcessor :=
  RealTimeVoiceProcessor.setup vadW 16000 "base"

def c1Out : RealTimeVoiceProcessor × ChunkStats :=
  RealTimeVoiceProcessor.processSamples envW procW (floatOfInt16 [0]) 5

/-- Witness for C1: the concrete chunk `[1]` (one zero sample) on a
fresh processor processes successfully, so the dispatch-rule equivalence
holds at it. -/
theorem C1_dispatch_rule_witness :
    RealTimeVoiceProcessor.process_audio_chunk envW procW [1] 5
      = (c1Out.1, ChunkOutcome.ok c1Out.2)
    ∧ ((c1Out.2.transcription_queued = true ↔
        (c1Out.2.speech_detected = true
          ∧ 1 < c1Out.1.audio_buffer.get_duration
          ∧ 5 - c1Out.1.audio_buffer.last_speech_time
              < c1Out.1.audio_buffer.silence_threshold))
      ∧ (c1Out.2.transcription_queued = true →
          c1Out.1.processing_queue
            = procW.processing_queue ++ [c1Out.1.audio_buffer.get_buffer])
      ∧ (c1Out.2.transcription_queued = false →
          c1Out.1.processing_queue = procW.processing_queue)) :=
  ⟨rfl, C1_dispatch_rule envW procW c1Out.1 [1] 5 c1Out.2 rfl⟩

/-! ## Claim C2: what dispatch does to the buffer -/

lemma maxAbs_le_of_bound {c : ℚ} (hc : 0 ≤ c) {l : List ℚ}
    (h : ∀ x ∈ l, |x| ≤ c) : maxAbs l ≤ c := by
  unfold maxAbs
  have aux : ∀ (l' : List ℚ) (a : ℚ), a ≤ c → (∀ x ∈ l', |x| ≤ c) →
      l'.foldl (fun m x => max m |x|) a ≤ c := by
    intro l'
    induction l' with
    | nil => intro a ha _; exact ha
    | cons y ys ih =>
      intro a ha hmem
      exact ih (max a |y|) (max_le ha (hmem y (List.mem_cons_self y ys)))
        (fun x hx => hmem x (List.mem_cons_of_mem y hx))
  exact aux l 0 hc h

lemma autoGain_length (a : List ℚ) : (autoGain a).length = a.length := by
  unfold autoGain
  split
  · split
    · simp
    · split
      · simp
      · rfl
  · rfl

lemma vadInt16_length (a : List ℚ) : (vadInt16 a).length = a.length := by
  unfold vadInt16
  rw [List.length_map, autoGain_length]

lemma framesOf_ne_nil {n : ℕ} {l : List ℤ} (hl : l ≠ []) : framesOf n l ≠ [] := by
  unfold framesOf
  cases l with
  | nil => exact absurd rfl hl
  | cons x xs => simp [framesOfAux]

lemma any_snd_enumFrom (n : ℕ) (l : List Bool) :
    ((List.enumFrom n l).any fun r => r.2) = l.any id := by
  induction l generalizing n with
  | nil => rfl
  | cons b bs ih => simp [List.enumFrom, List.any, ih]

lemma any_snd_enum (l : List Bool) :
    (l.enum.any fun r => r.2) = l.any id :=
  any_snd_enumFrom 0 l

/-- Under the all-speech capability every nonempty chunk is detected as
speech. -/
lemma speechDetected_envW (p : RealTimeVoiceProcessor) (a : List ℚ) (ha : a ≠ []) :
    RealTimeVoiceProcessor.speechDetected envW p a = true := by
  unfold RealTimeVoiceProcessor.speechDetected
  unfold VoiceActivityDetector.process_audio_chunks
  rw [if_neg (by simp [ha])]
  have hne : framesOf p.vad.frame_size (vadInt16 a) ≠ [] := by
    refine framesOf_ne_nil ?_
    intro hnil
    have hlen := vadInt16_length a
    rw [hnil] at hlen
    exact ha (List.length_eq_zero.mp hlen.symm)
  cases hfr : framesOf p.vad.frame_size (vadInt16 a) with
  | nil => exact absurd hfr hne
  | cons fr frs =>
    rw [any_snd_enum]
    show (((fr :: frs).map envW.is_speech).any id) = true
    simp [envW, b64W]

/-- The utterance state after 1.0 s of accumulated audio: what `procW`
reaches once chunks totalling 16000 samples (all of amplitude 0.5, all
speech-bearing, the last at instant 90) have been processed. -/
def bufT : AudioBuffer :=
  { sample_rate := 16000
    max_samples := 480000
    buffer := List.replicate 16000 ((1 : ℚ) / 2)
    last_speech_time := 90
    silence_threshold := 1 }

def procT : RealTimeVoiceProcessor :=
  { procW with audio_buffer := bufT
               total_chunks_processed := 10
               speech_chunks_detected := 10 }

@[simp] lemma floatOfInt16_length (ints : List ℤ) :
    (floatOfInt16 ints).length = ints.length := by
  unfold floatOfInt16
  exact List.length_map ints _

lemma bufT_append_length :
    (List.replicate 16000 ((1 : ℚ) / 2) ++ floatOfInt16 [0]).length = 16001 := by
  rw [List.length_append, List.length_replicate, floatOfInt16_length]
  rfl

lemma procT_add_chunk :
    bufT.add_chunk (floatOfInt16 [0])
      = { bufT with buffer := List.replicate 16000 ((1 : ℚ) / 2) ++ floatOfInt16 [0] } := by
  unfold AudioBuffer.add_chunk
  rw [if_neg (by simp [floatOfInt16])]
  rw [if_neg (by
    rw [show bufT.buffer = List.replicate 16000 ((1 : ℚ) / 2) from rfl,
        show bufT.max_samples = 480000 from rfl, bufT_append_length]
    norm_num)]
  rfl

lemma procT_chunkBuffer :
    RealTimeVoiceProcessor.chunkBuffer envW procT (floatOfInt16 [0]) 100
      = { bufT with buffer := List.replicate 16000 ((1 : ℚ) / 2) ++ floatOfInt16 [0]
                    last_speech_time := 100 } := by
  unfold RealTimeVoiceProcessor.chunkBuffer
  rw [speechDetected_envW procT (floatOfInt16 [0]) (by simp [floatOfInt16])]
  rw [if_pos rfl]
  rw [show procT.audio_buffer = bufT from rfl, procT_add_chunk]

lemma procT_trigger :
    RealTimeVoiceProcessor.triggerFires envW procT (floatOfInt16 [0]) 100 := by
  refine ⟨speechDetected_envW procT (floatOfInt16 [0]) (by simp [floatOfInt16]), ?_, ?_⟩
  · rw [procT_chunkBuffer]
    unfold AudioBuffer.get_duration
    show 1 < if (List.replicate 16000 ((1 : ℚ) / 2) ++ floatOfInt16 [0]).length > 0 then
        ((List.replicate 16000 ((1 : ℚ) / 2) ++ floatOfInt16 [0]).length : ℚ) / ((16000 : ℕ) : ℚ)
      else 0
    rw [bufT_append_length]
    rw [if_pos (by norm_num)]
    norm_num
  · rw [procT_chunkBuffer]
    show (100 : ℚ) - 100 < 1
    norm_num

lemma procT_queued :
    (RealTimeVoiceProcessor.processSamples envW procT (floatOfInt16 [0]) 100).2.transcription_queued
      = true :=
  (processSamples_spec envW procT (floatOfInt16 [0]) 100).1.mpr procT_trigger

lemma procT_buffer_after :
    (RealTimeVoiceProcessor.processSamples envW procT (floatOfInt16 [0]) 100).1.audio_buffer.buffer
      = List.replicate 16000 ((1 : ℚ) / 2) ++ floatOfInt16 [0] := by
  rw [(processSamples_spec envW procT (floatOfInt16 [0]) 100).2.1, procT_chunkBuffer]

/-- C2 as the spec states it is false: immediately after a dispatch the
utterance buffer is NOT empty.  Concretely: a processor holding 1.0 s of
buffered speech receives one more speech-bearing chunk; the chunk result
carries `transcription_queued = true`, yet the buffer afterwards still
holds all 16001 samples (nothing is cleared), so the same samples will
be re-enqueued by a later dispatch. -/
theorem C2_counterexample :
    RealTimeVoiceProcessor.process_audio_chunk envW procT [1] 100
      = ((RealTimeVoiceProcessor.processSamples envW procT (floatOfInt16 [0]) 100).1,
         ChunkOutcome.ok (RealTimeVoiceProcessor.processSamples envW procT (floatOfInt16 [0]) 100).2)
    ∧ (RealTimeVoiceProcessor.processSamples envW procT (floatOfInt16 [0]) 100).2.transcription_queued
        = true
    ∧ (RealTimeVoiceProcessor.processSamples envW procT (floatOfInt16 [0]) 100).1.audio_buffer.buffer
        ≠ [] := by
  refine ⟨rfl, procT_queued, ?_⟩
  rw [procT_buffer_after]
  intro hnil
  have hl := congrArg List.length hnil
  rw [bufT_append_length] at hl
  exact absurd hl (by norm_num)

/-- C2 amended: dispatch enqueues a snapshot of the entire current
buffer but does NOT clear it — the buffer keeps every sample (so samples
accumulated before an earlier dispatch are contained in the next
snapshot as well, a double-send the spec explicitly rules out). -/
theorem C2_no_clear_on_dispatch (env : Env) (p p' : RealTimeVoiceProcessor)
    (audio_data : List ℕ) (now : ℚ) (r : ChunkStats)
    (h : RealTimeVoiceProcessor.process_audio_chunk env p audio_data now
        = (p', ChunkOutcome.ok r))
    (hq : r.transcription_queued = true) :
    p'.processing_queue = p.processing_queue ++ [p'.audio_buffer.get_buffer]
    ∧ p'.audio_buffer.buffer ≠ [] := by
  obtain ⟨hiff, hpush, _⟩ := dispatch_spec env p p' audio_data now r h
  obtain ⟨_, hdur, _⟩ := hiff.mp hq
  refine ⟨hpush hq, ?_⟩
  intro hnil
  unfold AudioBuffer.get_duration at hdur
  rw [hnil] at hdur
  simp at hdur
  exact absurd hdur (by norm_num)

/-- Witness for C2 amended at the same triggering scenario: the
enqueued snapshot is the whole 16001-sample buffer, which remains in
place. -/
theorem C2_no_clear_on_dispatch_witness :
    (RealTimeVoiceProcessor.processSamples envW procT (floatOfInt16 [0]) 100).1.processing_queue
      = procT.processing_queue
        ++ [(RealTimeVoiceProcessor.processSamples envW procT (floatOfInt16 [0]) 100).1.audio_buffer.get_buffer]
    ∧ (RealTimeVoiceProcessor.processSamples envW procT (floatOfInt16 [0]) 100).1.audio_buffer.buffer
      ≠ [] :=
  C2_no_clear_on_dispatch envW procT
    (RealTimeVoiceProcessor.processSamples envW procT (floatOfInt16 [0]) 100).1
    [1] 100
    (RealTimeVoiceProcessor.processSamples envW procT (floatOfInt16 [0]) 100).2
    rfl procT_queued

/-! ## Claim C3: the reply when transcription triggers -/

lemma processSamples_misc (env : Env) (p : RealTimeVoiceProcessor)
    (a : List ℚ) (now : ℚ) :
    (RealTimeVoiceProcessor.processSamples env p a now).1.stt_loaded = p.stt_loaded
    ∧ (RealTimeVoiceProcessor.processSamples env p a now).1.sample_rate = p.sample_rate
    ∧ (RealTimeVoiceProcessor.processSamples env p a now).1.whisper_model = p.whisper_model := by
  unfold RealTimeVoiceProcessor.processSamples
  split <;> exact ⟨rfl, rfl, rfl⟩

/-- The post-chunk processor of the triggering scenario. -/
def pTafter : RealTimeVoiceProcessor :=
  (RealTimeVoiceProcessor.processSamples envW procT (floatOfInt16 [0]) 100).1

lemma pTafter_queue :
    pTafter.processing_queue = [List.replicate 16000 ((1 : ℚ) / 2) ++ floatOfInt16 [0]] := by
  have h := (processSamples_spec envW procT (floatOfInt16 [0]) 100).2.2.2.1 procT_trigger
  unfold pTafter
  rw [h, procT_chunkBuffer]
  rfl

lemma snapshot_maxAbs_le :
    maxAbs (List.replicate 16000 ((1 : ℚ) / 2) ++ floatOfInt16 [0]) ≤ 1 := by
  refine maxAbs_le_of_bound (by norm_num) ?_
  intro x hx
  rcases List.mem_append.mp hx with h | h
  · rw [List.eq_of_mem_replicate h, abs_le]
    constructor <;> norm_num
  · simp [floatOfInt16] at h
    rw [h, abs_le]
    constructor <;> norm_num

lemma sttPrep_snapshot :
    sttPrep (List.replicate 16000 ((1 : ℚ) / 2) ++ floatOfInt16 [0]) 16000
      = .ok (List.replicate 16000 ((1 : ℚ) / 2) ++ floatOfInt16 [0]) := by
  unfold sttPrep
  rw [if_neg (by simp : ¬ ((16000 : ℕ) ≠ 16000))]
  rw [if_neg (not_lt.mpr snapshot_maxAbs_le)]

lemma transcribe_snap :
    SpeechToTextProcessor.transcribe_audio envW
        (List.replicate 16000 ((1 : ℚ) / 2) ++ floatOfInt16 [0]) 16000 (some "en")
      = { text := "hello", language := some "en", error := none } := by
  unfold SpeechToTextProcessor.transcribe_audio
  rw [sttPrep_snapshot]
  rfl

lemma transcribeStep_eval (p : RealTimeVoiceProcessor) (hsr : p.sample_rate = 16000) :
    RealTimeVoiceProcessor.transcribeStep envW p
        (List.replicate 16000 ((1 : ℚ) / 2) ++ floatOfInt16 [0]) 100
      = ({ p with last_transcription := "hello", last_transcription_time := 100 },
         some (TransMessage.complete "hello" "en" ((16001 : ℚ) / 16000) 100)) := by
  unfold RealTimeVoiceProcessor.transcribeStep
  rw [hsr, transcribe_snap]
  dsimp only
  have hd : (((List.replicate 16000 ((1 : ℚ) / 2) ++ floatOfInt16 [0]).length : ℚ))
      / (((16000 : ℕ) : ℚ)) = (16001 : ℚ) / 16000 := by
    rw [bufT_append_length]
    norm_num
  rw [hd]
  rfl

lemma make_base : SpeechToTextProcessor.make envW "base" = .ok () := by
  unfold SpeechToTextProcessor.make
  rw [if_pos (Or.inr (Or.inl rfl))]
  rfl

lemma pTafter_stt : pTafter.stt_loaded = false :=
  ((processSamples_misc envW procT (floatOfInt16 [0]) 100).1).trans rfl

lemma pTafter_sr : pTafter.sample_rate = 16000 :=
  ((processSamples_misc envW procT (floatOfInt16 [0]) 100).2.1).trans rfl

lemma pTafter_wm : pTafter.whisper_model = "base" :=
  ((processSamples_misc envW procT (floatOfInt16 [0]) 100).2.2).trans rfl

lemma pTafter_drain :
    RealTimeVoiceProcessor.process_transcription_queue envW pTafter 100
      = ({ pTafter with processing_queue := [], stt_loaded := true,
                        last_transcription := "hello", last_transcription_time := 100 },
         some (TransMessage.complete "hello" "en" ((16001 : ℚ) / 16000) 100)) := by
  unfold RealTimeVoiceProcessor.process_transcription_queue
  rw [pTafter_queue]
  dsimp only
  rw [if_neg (by rw [bufT_append_length]; norm_num)]
  rw [pTafter_stt]
  rw [if_neg (by simp)]
  have hmk : SpeechToTextProcessor.make envW pTafter.whisper_model = .ok () := by
    rw [pTafter_wm]
    exact make_base
  rw [hmk]
  dsimp only
  have heval := transcribeStep_eval
    { pTafter with processing_queue := [], stt_loaded := true } pTafter_sr
  rw [heval]

/-- The server state of the triggering scenario: initialized, holding
1.0 s of buffered speech. -/
def srvT : WebSocketAudioServer :=
  { processor := some procT, clients := [] }

/-- C3: the code drops the stats message whenever transcription
triggers.  At the failing input — an initialized server whose processor
holds 1.0 s of buffered speech receives one more speech-bearing
`audio_chunk` — the single reply `process_message` produces is the
transcription message; the `audio_processed` stats dict built for that
chunk (lines 346-347) is discarded by the early `return` of line 354,
contradicting both the spec ("always emit a stats message ... a second
outbound transcription message") and the comment on line 352 ("send
transcription as separate message"). -/
lemma srvT_reply_hello :
    (WebSocketAudioServer.process_message envW 100 srvT (InMsg.audio_chunk [1])).2
      = OutMsg.transcription
          (TransMessage.complete "hello" "en" ((16001 : ℚ) / 16000) 100) := by
  unfold WebSocketAudioServer.process_message
  rw [show srvT.processor = some procT from rfl]
  dsimp only
  rw [if_neg (by simp)]
  rw [show (RealTimeVoiceProcessor.process_audio_chunk envW procT [1] 100).1
      = pTafter from rfl]
  rw [pTafter_drain]

theorem C3_stats_reply_dropped :
    (WebSocketAudioServer.process_message envW 100 srvT (InMsg.audio_chunk [1])).2
      = OutMsg.transcription
          (TransMessage.complete "hello" "en" ((16001 : ℚ) / 16000) 100) :=
  srvT_reply_hello

/-! ## Claim C4: messages before init -/

/-- The server before any `init` message. -/
def srvU : WebSocketAudioServer :=
  { processor := none, clients := [] }

/-- C4 as stated is false for `reset`: sent before any `init`, `reset`
does not reply with a NotInitialized error — it replies
`reset_response / reset_complete` (the `if self.processor` guard of
line 367 silently skips the reset and line 370 returns success). -/
theorem C4_counterexample :
    WebSocketAudioServer.process_message envW 0 srvU InMsg.reset
      = (srvU, OutMsg.reset_response)
    ∧ OutMsg.reset_response ≠ OutMsg.errorReply "Processor not initialized" := by
  constructor
  · rfl
  · simp

/-- C4 amended: before `init`, `audio_chunk` and `get_stats` reply with
the `Processor not initialized` error and change no state; `reset`
also changes no state but replies with the success message
`reset_response`, not an error. -/
theorem C4_not_initialized (env : Env) (now : ℚ) (s : WebSocketAudioServer)
    (hs : s.processor = none) (audio_data : List ℕ) :
    WebSocketAudioServer.process_message env now s (InMsg.audio_chunk audio_data)
        = (s, OutMsg.errorReply "Processor not initialized")
    ∧ WebSocketAudioServer.process_message env now s InMsg.get_stats
        = (s, OutMsg.errorReply "Processor not initialized")
    ∧ WebSocketAudioServer.process_message env now s InMsg.reset
        = (s, OutMsg.reset_response) := by
  unfold WebSocketAudioServer.process_message
  rw [hs]
  exact ⟨rfl, rfl, rfl⟩

/-- Witness for C4 amended at the fresh server. -/
theorem C4_not_initialized_witness :
    WebSocketAudioServer.process_message envW 0 srvU (InMsg.audio_chunk [1])
        = (srvU, OutMsg.errorReply "Processor not initialized")
    ∧ WebSocketAudioServer.process_message envW 0 srvU InMsg.get_stats
        = (srvU, OutMsg.errorReply "Processor not initialized")
    ∧ WebSocketAudioServer.process_message envW 0 srvU InMsg.reset
        = (srvU, OutMsg.reset_response) :=
  C4_not_initialized envW 0 srvU rfl [1]

/-! ## Claim C6: empty payloads -/

/-- C6: an `audio_chunk` whose `audio_data` is the empty (falsy) string
is rejected by the server with `No audio data provided` before the
processor is touched; a nonempty string whose payload decodes to zero
int16 samples is rejected inside `process_audio_chunk` with
`Empty audio chunk` before any counter, buffer or queue is touched — in
both cases the processor state is exactly what it was.  At the message
level (with the queue empty, as it always is between messages), the
zero-sample case replies with that error dict (tagged
`audio_processed`) and the server state is unchanged. -/
theorem C6_empty_chunk_no_state_change (env : Env) (now : ℚ) :
    (∀ (s : WebSocketAudioServer) (p : RealTimeVoiceProcessor),
        s.processor = some p →
        WebSocketAudioServer.process_message env now s (InMsg.audio_chunk [])
          = (s, OutMsg.errorReply "No audio data provided"))
    ∧ (∀ (p : RealTimeVoiceProcessor) (d bytes : List ℕ),
        env.b64decode d = .ok bytes → int16OfBytes bytes = .ok [] →
        RealTimeVoiceProcessor.process_audio_chunk env p d now
          = (p, ChunkOutcome.error "Empty audio chunk"))
    ∧ (∀ (s : WebSocketAudioServer) (p : RealTimeVoiceProcessor) (d bytes : List ℕ),
        s.processor = some p → p.processing_queue = [] → d ≠ [] →
        env.b64decode d = .ok bytes → int16OfBytes bytes = .ok [] →
        WebSocketAudioServer.process_message env now s (InMsg.audio_chunk d)
          = (s, OutMsg.audio_processed (ChunkOutcome.error "Empty audio chunk"))) := by
  refine ⟨?_, ?_, ?_⟩
  · intro s p hs
    unfold WebSocketAudioServer.process_message
    rw [hs]
    rfl
  · intro p d bytes hb hi
    exact process_audio_chunk_empty hb hi rfl
  · intro s p d bytes hs hq hd hb hi
    unfold WebSocketAudioServer.process_message
    rw [hs]
    dsimp only
    rw [if_neg (by simpa using hd)]
    rw [process_audio_chunk_empty hb hi rfl]
    dsimp only
    unfold RealTimeVoiceProcessor.process_transcription_queue
    rw [hq]
    dsimp only
    cases s with
    | mk proc cl =>
      cases hs
      rfl

/-- Witness for C6 at the concrete inputs: the empty string, and the
whitespace-only base64 string `[9]` that decodes to zero bytes. -/
theorem C6_empty_chunk_witness :
    WebSocketAudioServer.process_message envW 0 srvT (InMsg.audio_chunk [])
      = (srvT, OutMsg.errorReply "No audio data provided")
    ∧ RealTimeVoiceProcessor.process_audio_chunk envW procW [9] 0
      = (procW, ChunkOutcome.error "Empty audio chunk")
    ∧ WebSocketAudioServer.process_message envW 0 srvT (InMsg.audio_chunk [9])
      = (srvT, OutMsg.audio_processed (ChunkOutcome.error "Empty audio chunk")) :=
  ⟨(C6_empty_chunk_no_state_change envW 0).1 srvT procT rfl,
   (C6_empty_chunk_no_state_change envW 0).2.1 procW [9] [] rfl rfl,
   (C6_empty_chunk_no_state_change envW 0).2.2 srvT procT [9] [] rfl rfl
     (by simp) rfl rfl⟩


/-! ## Claim C8: dispatch blocks the ingest path -/

/-- Like `envW`, but Whisper model loading fails: the two environments
agree on everything the chunk-ingest path uses (base64, VAD) and differ
only in the transcription side. -/
def envW2 : Env :=
  { envW with load_model := fun _ => .error "model load failed" }

lemma speechDetected_true (env : Env) (he : env.is_speech = fun _ => true)
    (p : RealTimeVoiceProcessor) (a : List ℚ) (ha : a ≠ []) :
    RealTimeVoiceProcessor.speechDetected env p a = true := by
  unfold RealTimeVoiceProcessor.speechDetected
  unfold VoiceActivityDetector.process_audio_chunks
  rw [if_neg (by simp [ha])]
  have hne : framesOf p.vad.frame_size (vadInt16 a) ≠ [] := by
    refine framesOf_ne_nil ?_
    intro hnil
    have hlen := vadInt16_length a
    rw [hnil] at hlen
    exact ha (List.length_eq_zero.mp hlen.symm)
  cases hfr : framesOf p.vad.frame_size (vadInt16 a) with
  | nil => exact absurd hfr hne
  | cons fr frs =>
    rw [any_snd_enum, he]
    simp

lemma procT_chunkBuffer2 :
    RealTimeVoiceProcessor.chunkBuffer envW2 procT (floatOfInt16 [0]) 100
      = { bufT with buffer := List.replicate 16000 ((1 : ℚ) / 2) ++ floatOfInt16 [0]
                    last_speech_time := 100 } := by
  unfold RealTimeVoiceProcessor.chunkBuffer
  rw [speechDetected_true envW2 rfl procT (floatOfInt16 [0]) (by simp [floatOfInt16])]
  rw [if_pos rfl]
  rw [show procT.audio_buffer = bufT from rfl, procT_add_chunk]

lemma procT_trigger2 :
    RealTimeVoiceProcessor.triggerFires envW2 procT (floatOfInt16 [0]) 100 := by
  refine ⟨speechDetected_true envW2 rfl procT (floatOfInt16 [0]) (by simp [floatOfInt16]), ?_, ?_⟩
  · rw [procT_chunkBuffer2]
    unfold AudioBuffer.get_duration
    show 1 < if (List.replicate 16000 ((1 : ℚ) / 2) ++ floatOfInt16 [0]).length > 0 then
        ((List.replicate 16000 ((1 : ℚ) / 2) ++ floatOfInt16 [0]).length : ℚ) / ((16000 : ℕ) : ℚ)
      else 0
    rw [bufT_append_length]
    rw [if_pos (by norm_num)]
    norm_num
  · rw [procT_chunkBuffer2]
    show (100 : ℚ) - 100 < 1
    norm_num

/-- The post-chunk processor under `envW2`. -/
def pTafter2 : RealTimeVoiceProcessor :=
  (RealTimeVoiceProcessor.processSamples envW2 procT (floatOfInt16 [0]) 100).1

lemma pTafter2_queue :
    pTafter2.processing_queue = [List.replicate 16000 ((1 : ℚ) / 2) ++ floatOfInt16 [0]] := by
  have h := (processSamples_spec envW2 procT (floatOfInt16 [0]) 100).2.2.2.1 procT_trigger2
  unfold pTafter2
  rw [h, procT_chunkBuffer2]
  rfl

lemma pTafter2_stt : pTafter2.stt_loaded = false :=
  ((processSamples_misc envW2 procT (floatOfInt16 [0]) 100).1).trans rfl

lemma pTafter2_wm : pTafter2.whisper_model = "base" :=
  ((processSamples_misc envW2 procT (floatOfInt16 [0]) 100).2.2).trans rfl

lemma make_base2 :
    SpeechToTextProcessor.make envW2 "base" = .error "model load failed" := by
  unfold SpeechToTextProcessor.make
  rw [if_pos (Or.inr (Or.inl rfl))]
  rfl

lemma pTafter2_drain :
    RealTimeVoiceProcessor.process_transcription_queue envW2 pTafter2 100
      = ({ pTafter2 with processing_queue := [] },
         some (TransMessage.failed "model load failed")) := by
  unfold RealTimeVoiceProcessor.process_transcription_queue
  rw [pTafter2_queue]
  dsimp only
  rw [if_neg (by rw [bufT_append_length]; norm_num)]
  rw [pTafter2_stt]
  rw [if_neg (by simp)]
  have hmk : SpeechToTextProcessor.make envW2 pTafter2.whisper_model
      = .error "model load failed" := by
    rw [pTafter2_wm]
    exact make_base2
  rw [hmk]

lemma srvT_reply_envW2 :
    (WebSocketAudioServer.process_message envW2 100 srvT (InMsg.audio_chunk [1])).2
      = OutMsg.transcription (TransMessage.failed "model load failed") := by
  unfold WebSocketAudioServer.process_message
  rw [show srvT.processor = some procT from rfl]
  dsimp only
  rw [if_neg (by simp)]
  rw [show (RealTimeVoiceProcessor.process_audio_chunk envW2 procT [1] 100).1
      = pTafter2 from rfl]
  rw [pTafter2_drain]

/-- C8 as stated is false: handling of an `audio_chunk` does block on
model acquisition and transcription.  Two capability environments that
agree on everything the ingest path uses (base64 decoding, the VAD
decision) and differ only in the Whisper side (model loading fails in
one) produce different direct replies to the same triggering chunk — so
the reply, and with it the handling of the chunk, waits on the
transcription capability. -/
theorem C8_counterexample :
    (WebSocketAudioServer.process_message envW 100 srvT (InMsg.audio_chunk [1])).2
      ≠ (WebSocketAudioServer.process_message envW2 100 srvT (InMsg.audio_chunk [1])).2 := by
  rw [srvT_reply_hello, srvT_reply_envW2]
  simp

lemma transcribeStep_reply (env : Env) (now : ℚ) (P : RealTimeVoiceProcessor)
    (snap x : List ℚ) (w : WhisperResult)
    (hprep : sttPrep snap P.sample_rate = .ok x)
    (hcap : env.whisper_transcribe x (some "en") = .ok w) :
    (RealTimeVoiceProcessor.transcribeStep env P snap now).2
      = some (TransMessage.complete w.text (w.language.getD "unknown")
          ((snap.length : ℚ) / (P.sample_rate : ℚ)) now) := by
  unfold RealTimeVoiceProcessor.transcribeStep SpeechToTextProcessor.transcribe_audio
  rw [hprep]
  dsimp only
  rw [hcap]

/-- C8 amended: when a chunk triggers dispatch, the server performs
model acquisition and the transcription inline, during the handling of
that very message, and the reply it returns for the chunk is the
transcription result built from the capability output — not the stats
message, and not anything independent of the (seconds-long)
transcription capability. -/
theorem C8_reply_waits_on_transcription (env : Env) (now : ℚ)
    (s : WebSocketAudioServer) (p p1 : RealTimeVoiceProcessor) (d : List ℕ)
    (r : ChunkStats) (x : List ℚ) (w : WhisperResult)
    (hs : s.processor = some p)
    (hd : d ≠ [])
    (hq0 : p.processing_queue = [])
    (h1 : RealTimeVoiceProcessor.process_audio_chunk env p d now
        = (p1, ChunkOutcome.ok r))
    (hq : r.transcription_queued = true)
    (hmk : SpeechToTextProcessor.make env p1.whisper_model = .ok ())
    (hprep : sttPrep p1.audio_buffer.buffer p1.sample_rate = .ok x)
    (hcap : env.whisper_transcribe x (some "en") = .ok w) :
    (WebSocketAudioServer.process_message env now s (InMsg.audio_chunk d)).2
      = OutMsg.transcription (TransMessage.complete w.text (w.language.getD "unknown")
          ((p1.audio_buffer.buffer.length : ℚ) / (p1.sample_rate : ℚ)) now) := by
  obtain ⟨hiff, hpush, _⟩ := dispatch_spec env p p1 d now r h1
  have hqueue : p1.processing_queue = [p1.audio_buffer.buffer] := by
    rw [hpush hq, hq0]
    rfl
  have hne : p1.audio_buffer.buffer ≠ [] := by
    obtain ⟨_, hdur, _⟩ := hiff.mp hq
    intro hnil
    unfold AudioBuffer.get_duration at hdur
    rw [hnil] at hdur
    simp at hdur
    exact absurd hdur (by norm_num)
  unfold WebSocketAudioServer.process_message
  rw [hs]
  dsimp only
  rw [if_neg (by simpa using hd)]
  rw [h1]
  dsimp only
  unfold RealTimeVoiceProcessor.process_transcription_queue
  rw [hqueue]
  dsimp only
  rw [if_neg (by simpa using hne)]
  by_cases hld : p1.stt_loaded = true
  · rw [if_pos hld]
    rw [transcribeStep_reply env now { p1 with processing_queue := [] }
        p1.audio_buffer.buffer x w hprep hcap]
  · rw [if_neg hld]
    rw [hmk]
    dsimp only
    rw [transcribeStep_reply env now
        { p1 with processing_queue := [], stt_loaded := true }
        p1.audio_buffer.buffer x w hprep hcap]

/-- Witness for C8 amended at the triggering scenario: the reply to the
chunk is the transcription of the 16001-sample snapshot. -/
theorem C8_reply_waits_witness :
    (WebSocketAudioServer.process_message envW 100 srvT (InMsg.audio_chunk [1])).2
      = OutMsg.transcription (TransMessage.complete "hello" "en"
          ((pTafter.audio_buffer.buffer.length : ℚ) / (pTafter.sample_rate : ℚ)) 100) :=
  C8_reply_waits_on_transcription envW 100 srvT procT pTafter [1]
    (RealTimeVoiceProcessor.processSamples envW procT (floatOfInt16 [0]) 100).2
    (List.replicate 16000 ((1 : ℚ) / 2) ++ floatOfInt16 [0])
    { text := "hello", language := some "en" }
    rfl (by simp) rfl rfl procT_queued
    (by rw [pTafter_wm]; exact make_base)
    (by
      rw [show pTafter.audio_buffer.buffer
          = List.replicate 16000 ((1 : ℚ) / 2) ++ floatOfInt16 [0] from procT_buffer_after,
        pTafter_sr]
      exact sttPrep_snapshot)
    rfl



/-! ## Claim C9: init replaces the server-level processor -/

lemma pm_clients_invariant (env : Env) (now : ℚ)
    (proc : Option RealTimeVoiceProcessor) (cl1 cl2 : List ℕ) (m : InMsg) :
    (WebSocketAudioServer.process_message env now ⟨proc, cl1⟩ m).1.processor
      = (WebSocketAudioServer.process_message env now ⟨proc, cl2⟩ m).1.processor
    ∧ (WebSocketAudioServer.process_message env now ⟨proc, cl1⟩ m).2
      = (WebSocketAudioServer.process_message env now ⟨proc, cl2⟩ m).2 := by
  unfold WebSocketAudioServer.process_message
  cases m with
  | init a sr wm =>
    dsimp only
    cases hmk : RealTimeVoiceProcessor.make a sr wm <;> dsimp only <;> exact ⟨rfl, rfl⟩
  | audio_chunk d =>
    cases proc with
    | none => exact ⟨rfl, rfl⟩
    | some p =>
      dsimp only
      by_cases hd : d.length = 0
      · rw [if_pos hd, if_pos hd]
        exact ⟨rfl, rfl⟩
      · rw [if_neg hd, if_neg hd]
        cases h2 : (RealTimeVoiceProcessor.process_transcription_queue env
            (RealTimeVoiceProcessor.process_audio_chunk env p d now).1 now).2 <;>
          dsimp only <;> exact ⟨rfl, rfl⟩
  | get_stats => cases proc <;> exact ⟨rfl, rfl⟩
  | reset => cases proc <;> exact ⟨rfl, rfl⟩
  | other t => exact ⟨rfl, rfl⟩

/-- C9 as stated ("whenever the server receives an init message ... it
constructs a brand-new processor and replaces the old one") is false
when the settings are invalid: `init` with `sample_rate = 12345` raises
inside the VAD constructor, `handle_client` replies with the error, and
the OLD processor — its counters included — survives untouched. -/
theorem C9_counterexample :
    WebSocketAudioServer.process_message envW 0 srvT (InMsg.init 1 12345 "base")
      = (srvT, OutMsg.errorReply "Sample rate must be 8000, 16000, 32000, or 48000 Hz")
    ∧ procT.total_chunks_processed = 10 :=
  ⟨rfl, rfl⟩

/-- C9 amended: an `init` whose settings pass the VAD constructor
(sample rate in 8000/16000/32000/48000, aggressiveness 0..3) replaces
whatever processor the server held — regardless of the previous state —
with a brand-new one: zero counters, empty buffer, empty queue, model
not loaded; on invalid settings the old processor is kept and an error
is replied.  The processor is a single server-level field: what
`process_message` does to it, and what it replies, is independent of
the connected-client set, so every client shares the one processor. -/
theorem C9_init_replaces_processor (env : Env) (now : ℚ) (s : WebSocketAudioServer)
    (a : ℤ) (sr : ℕ) (wm : String) (v : VoiceActivityDetector)
    (hv : VoiceActivityDetector.make a sr = .ok v) :
    WebSocketAudioServer.process_message env now s (InMsg.init a sr wm)
        = ({ s with processor := some (RealTimeVoiceProcessor.setup v sr wm) },
           OutMsg.init_response a sr wm)
    ∧ (RealTimeVoiceProcessor.setup v sr wm).total_chunks_processed = 0
    ∧ (RealTimeVoiceProcessor.setup v sr wm).speech_chunks_detected = 0
    ∧ (RealTimeVoiceProcessor.setup v sr wm).audio_buffer.buffer = []
    ∧ (RealTimeVoiceProcessor.setup v sr wm).processing_queue = []
    ∧ (RealTimeVoiceProcessor.setup v sr wm).stt_loaded = false
    ∧ (∀ (proc : Option RealTimeVoiceProcessor) (cl1 cl2 : List ℕ) (m : InMsg),
        (WebSocketAudioServer.process_message env now ⟨proc, cl1⟩ m).1.processor
          = (WebSocketAudioServer.process_message env now ⟨proc, cl2⟩ m).1.processor) := by
  refine ⟨?_, rfl, rfl, rfl, rfl, rfl, fun proc cl1 cl2 m =>
    (pm_clients_invariant env now proc cl1 cl2 m).1⟩
  unfold WebSocketAudioServer.process_message
  dsimp only
  have hmk : RealTimeVoiceProcessor.make a sr wm
      = .ok (RealTimeVoiceProcessor.setup v sr wm) := by
    unfold RealTimeVoiceProcessor.make
    rw [hv]
  rw [hmk]

/-- Witness for C9 amended: a valid re-`init` on the server whose
processor already counts 10 chunks yields the fresh processor. -/
theorem C9_init_replaces_processor_witness :
    (WebSocketAudioServer.process_message envW 7 srvT (InMsg.init 1 16000 "tiny")
        = ({ srvT with processor := some (RealTimeVoiceProcessor.setup vadW 16000 "tiny") },
           OutMsg.init_response 1 16000 "tiny")
    ∧ (RealTimeVoiceProcessor.setup vadW 16000 "tiny").total_chunks_processed = 0
    ∧ (RealTimeVoiceProcessor.setup vadW 16000 "tiny").speech_chunks_detected = 0
    ∧ (RealTimeVoiceProcessor.setup vadW 16000 "tiny").audio_buffer.buffer = []
    ∧ (RealTimeVoiceProcessor.setup vadW 16000 "tiny").processing_queue = []
    ∧ (RealTimeVoiceProcessor.setup vadW 16000 "tiny").stt_loaded = false
    ∧ (∀ (proc : Option RealTimeVoiceProcessor) (cl1 cl2 : List ℕ) (m : InMsg),
        (WebSocketAudioServer.process_message envW 7 ⟨proc, cl1⟩ m).1.processor
          = (WebSocketAudioServer.process_message envW 7 ⟨proc, cl2⟩ m).1.processor)) :=
  C9_init_replaces_processor envW 7 srvT 1 16000 "tiny" vadW rfl



/-! ## Claim C10: transcribe_audio never raises, error key is the failure signal -/

lemma transcribe_audio_eq_ok {env : Env} {audio : List ℚ} {sr : ℕ}
    {lang : Option String} {x : List ℚ} {w : WhisperResult}
    (hx : sttPrep audio sr = .ok x)
    (hw : env.whisper_transcribe x lang = .ok w) :
    SpeechToTextProcessor.transcribe_audio env audio sr lang
      = { text := w.text, language := w.language, error := none } := by
  unfold SpeechToTextProcessor.transcribe_audio
  rw [hx]
  dsimp only
  rw [hw]

lemma transcribe_audio_eq_err_prep {env : Env} {audio : List ℚ} {sr : ℕ}
    {lang : Option String} {e : String}
    (hx : sttPrep audio sr = .error e) :
    SpeechToTextProcessor.transcribe_audio env audio sr lang
      = { text := "", language := none, error := some e } := by
  unfold SpeechToTextProcessor.transcribe_audio
  rw [hx]

lemma transcribe_audio_eq_err_cap {env : Env} {audio : List ℚ} {sr : ℕ}
    {lang : Option String} {x : List ℚ} {e : String}
    (hx : sttPrep audio sr = .ok x)
    (hw : env.whisper_transcribe x lang = .error e) :
    SpeechToTextProcessor.transcribe_audio env audio sr lang
      = { text := "", language := none, error := some e } := by
  unfold SpeechToTextProcessor.transcribe_audio
  rw [hx]
  dsimp only
  rw [hw]

/-- C10: `transcribe_audio` is total (it returns a result dict for every
input and capability behaviour — the whole body is inside one
`try/except`): its `error` key is absent exactly when the preprocessing
succeeded and the capability returned a result, in which case the dict
is that result; on any failure the dict is `text = ""` with the message
under `error`.  The worker treats a result as success exactly when the
`error` key is absent, emits `transcription_error` otherwise, and in
both cases has already dequeued the item, so it resumes normally. -/
theorem C10_transcribe_never_raises (env : Env) (audio : List ℚ) (sr : ℕ)
    (lang : Option String) :
    ((SpeechToTextProcessor.transcribe_audio env audio sr lang).error = none ↔
      (∃ x w, sttPrep audio sr = .ok x ∧ env.whisper_transcribe x lang = .ok w
        ∧ SpeechToTextProcessor.transcribe_audio env audio sr lang
            = { text := w.text, language := w.language, error := none }))
    ∧ (∀ e, (SpeechToTextProcessor.transcribe_audio env audio sr lang).error = some e →
        SpeechToTextProcessor.transcribe_audio env audio sr lang
          = { text := "", language := none, error := some e })
    ∧ (∀ (p : RealTimeVoiceProcessor) (now : ℚ) (a : List ℚ) (rest : List (List ℚ)),
        p.processing_queue = a :: rest → a ≠ [] → p.stt_loaded = true →
        ((RealTimeVoiceProcessor.process_transcription_queue env p now).1.processing_queue
            = rest
        ∧ ((SpeechToTextProcessor.transcribe_audio env a p.sample_rate (some "en")).error
              = none →
            (RealTimeVoiceProcessor.process_transcription_queue env p now).2
              = some (TransMessage.complete
                  (SpeechToTextProcessor.transcribe_audio env a p.sample_rate (some "en")).text
                  ((SpeechToTextProcessor.transcribe_audio env a p.sample_rate (some "en")).language.getD "unknown")
                  ((a.length : ℚ) / (p.sample_rate : ℚ)) now))
        ∧ (∀ e, (SpeechToTextProcessor.transcribe_audio env a p.sample_rate (some "en")).error
              = some e →
            (RealTimeVoiceProcessor.process_transcription_queue env p now).2
              = some (TransMessage.failed e)))) := by
  refine ⟨?_, ?_, ?_⟩
  · cases hx : sttPrep audio sr with
    | error e =>
      rw [transcribe_audio_eq_err_prep hx]
      constructor
      · intro h
        exact absurd h (by simp)
      · rintro ⟨x, w, hx2, _, _⟩
        exact absurd hx2 (by simp)
    | ok prepped =>
      cases hw : env.whisper_transcribe prepped lang with
      | error e =>
        rw [transcribe_audio_eq_err_cap hx hw]
        constructor
        · intro h
          exact absurd h (by simp)
        · rintro ⟨x, w, hx2, hw2, _⟩
          injection hx2 with hxx
          subst hxx
          rw [hw] at hw2
          exact absurd hw2 (by simp)
      | ok w =>
        rw [transcribe_audio_eq_ok hx hw]
        constructor
        · intro _
          exact ⟨prepped, w, rfl, hw, rfl⟩
        · intro _
          rfl
  · intro e he
    cases hx : sttPrep audio sr with
    | error e2 =>
      rw [transcribe_audio_eq_err_prep hx] at he ⊢
      simp at he
      rw [he]
    | ok prepped =>
      cases hw : env.whisper_transcribe prepped lang with
      | error e2 =>
        rw [transcribe_audio_eq_err_cap hx hw] at he ⊢
        simp at he
        rw [he]
      | ok w =>
        rw [transcribe_audio_eq_ok hx hw] at he
        simp at he
  · intro p now a rest hqe ha hld
    unfold RealTimeVoiceProcessor.process_transcription_queue
    rw [hqe]
    dsimp only
    rw [if_neg (by simpa using ha)]
    rw [hld, if_pos rfl]
    unfold RealTimeVoiceProcessor.transcribeStep
    dsimp only
    refine ⟨?_, ?_, ?_⟩
    · cases he2 : (SpeechToTextProcessor.transcribe_audio env a p.sample_rate (some "en")).error <;>
        rfl
    · intro hnone
      rw [hnone]
    · intro e he2
      rw [he2]


end NeuroTalk
